import Mathlib

/-!
Verification of the Learnifyverse backend (`app_backup.py`).

The file shallowly embeds the Flask request handlers of the repository and
the generic object store they call into Lean, and proves or refutes the
frozen specification claims about them.

Modelling conventions:
* JSON response bodies are association lists of `String` keys and `JVal`
  values; an HTTP response is a status code plus such a body.
* The storage facade (the `models` package, which only ships as an external
  collaborator of this repository) is modelled from the spec as a generic
  keyed object store: `save` inserts or replaces by id, `show` looks an
  entity up by id, `fetch` filters children by parent id, `all` returns
  every stored entity.
* Entity ids (UUID strings in the original) are modelled as naturals; a
  fresh-id counter stands for UUID generation, consumed in construction
  order exactly as the Python constructors run.
* Persistence during `create_roadmap` is modelled as the ordered list of
  `save` events the handler performs; replaying them with `runSaves`
  yields the final store, and trace predicates inspect the store at each
  intermediate point.
* Python truthiness on request fields is modelled by `Option` (absent)
  plus an explicit empty-string test where the source uses `if not x` on
  a string.
-/

namespace Learnify

/-- A JSON value, as produced by `jsonify`. -/
inductive JVal where
  | null : JVal
  | str : String → JVal
  | num : Nat → JVal
  | bool : Bool → JVal
  | arr : List JVal → JVal
  | obj : List (String × JVal) → JVal

/-- An HTTP response: status code and JSON object body. -/
structure Response where
  status : Nat
  body : List (String × JVal)

/-- User record (fields used by the embedded handlers). -/
structure User where
  id : Nat
  first_name : String
  last_name : String
  email : String
deriving DecidableEq, Repr

/-- Roadmap record, translated from the fields `create_roadmap` and
`update_roadmap_status` manipulate. -/
structure Roadmap where
  id : Nat
  user_id : Nat
  title : String
  introduction : String
  additionalInfo : String
  planning : Bool
  in_progress : Bool
  completed : Bool
  created_at : Nat
deriving DecidableEq, Repr

/-- Topic record, translated from the `Topic(...)` construction in
`create_roadmap`. -/
structure Topic where
  id : Nat
  roadmap_id : Nat
  position : Nat
  name : String
  description : String
  milestones : String
deriving DecidableEq, Repr

/-- Objective record (`Objectives(name=..., topic_id=...)`). -/
structure Objective where
  id : Nat
  topic_id : Nat
  name : String
deriving DecidableEq, Repr

/-- Resource record (`Resources(link=..., topic_id=...)`). -/
structure Resource where
  id : Nat
  topic_id : Nat
  link : String
deriving DecidableEq, Repr

/-- Modelled from the spec: the storage facade of the `models` package
(absent from `src/`) is a generic object store keyed by entity type and
id. -/
structure Storage where
  users : List User
  roadmaps : List Roadmap
  topics : List Topic
  objectives : List Objective
  resources : List Resource
deriving DecidableEq, Repr

/-- A persisted object: one `save` event of the storage facade. -/
inductive Entity where
  | user : User → Entity
  | roadmap : Roadmap → Entity
  | topic : Topic → Entity
  | objective : Objective → Entity
  | resource : Resource → Entity
deriving DecidableEq, Repr

/-- Modelled from the spec: `save(obj)` persists an object in the keyed
store, replacing any object of the same type and id, otherwise adding it. -/
def saveIn {α : Type} (idOf : α → Nat) (l : List α) (x : α) : List α :=
  if l.any (fun y => idOf y == idOf x) then
    l.map (fun y => if idOf y == idOf x then x else y)
  else l ++ [x]

/-- Apply one `save` event to the store. -/
def applySave (st : Storage) (e : Entity) : Storage :=
  match e with
  | .user u => { st with users := saveIn User.id st.users u }
  | .roadmap r => { st with roadmaps := saveIn Roadmap.id st.roadmaps r }
  | .topic t => { st with topics := saveIn Topic.id st.topics t }
  | .objective o => { st with objectives := saveIn Objective.id st.objectives o }
  | .resource s => { st with resources := saveIn Resource.id st.resources s }

/-- Replay a list of `save` events against an initial store. -/
def runSaves (st : Storage) (ops : List Entity) : Storage :=
  ops.foldl applySave st

/-- Modelled from the spec: `storage.show("Roadmap", id)` looks a roadmap
up by its id. -/
def showRoadmap (st : Storage) (rid : Nat) : Option Roadmap :=
  st.roadmaps.find? (fun r => r.id == rid)

/-- Modelled from the spec: `storage.show("User", id)`. -/
def showUser (st : Storage) (uid : Nat) : Option User :=
  st.users.find? (fun u => u.id == uid)

/-- Modelled from the spec: `storage.fetch("Topic", roadmap_id)` returns
the topics whose parent is the given roadmap. -/
def fetchTopics (st : Storage) (rid : Nat) : List Topic :=
  st.topics.filter (fun t => t.roadmap_id == rid)

/-- Modelled from the spec: `storage.fetch("Objectives", topic_id)`. -/
def fetchObjectives (st : Storage) (tid : Nat) : List Objective :=
  st.objectives.filter (fun o => o.topic_id == tid)

/-- Modelled from the spec: `storage.fetch("Resources", topic_id)`. -/
def fetchResources (st : Storage) (tid : Nat) : List Resource :=
  st.resources.filter (fun r => r.topic_id == tid)

/-- The `if/elif` chain of `update_roadmap_status` that flips the three
status booleans; an unrecognised status string changes nothing. -/
def setStatus (r : Roadmap) (s : String) : Roadmap :=
  if s = "planning" then
    { r with planning := true, in_progress := false, completed := false }
  else if s = "in_progress" then
    { r with in_progress := true, planning := false, completed := false }
  else if s = "completed" then
    { r with completed := true, planning := false, in_progress := false }
  else r

/-- Property checker for the claims: exactly the flag matching the
requested status is set. -/
def statusMatches (r : Roadmap) (s : String) : Bool :=
  if s = "planning" then r.planning && !r.in_progress && !r.completed
  else if s = "in_progress" then !r.planning && r.in_progress && !r.completed
  else if s = "completed" then !r.planning && !r.in_progress && r.completed
  else false

/-- Handler for `PUT /update_roadmap_status/<roadmap_id>`.  The whole body
runs inside `try`/`except Exception`, so the two `abort` calls (which raise
HTTPException, a subclass of Exception) are caught by the blanket handler
and rendered as 500 responses whose message embeds `str(e)` of the
HTTPException. -/
def update_roadmap_status (st : Storage) (rid : Nat) (ns : Option String) :
    Response × Storage :=
  match showRoadmap st rid with
  | none =>
      (⟨500, [("error", JVal.str "An error occurred: 404 Not Found: Roadmap Not Found")]⟩, st)
  | some r =>
      match ns with
      | none =>
          (⟨500, [("error", JVal.str "An error occurred: 403 Forbidden: Invalid Request body")]⟩, st)
      | some s =>
          if s = "" then
            (⟨500, [("error", JVal.str "An error occurred: 403 Forbidden: Invalid Request body")]⟩, st)
          else
            (⟨200, [("message", JVal.str ("Roadmap status (" ++ s ++ ") updated successfully"))]⟩,
             applySave st (Entity.roadmap (setStatus r s)))

/-- Error handler for 400 (`bad_request` in the source). -/
def bad_request (description : String) : Response :=
  ⟨400, [("Error", JVal.str description)]⟩

/-- Error handler for 403 (`forbidden` in the source). -/
def forbidden (description : String) : Response :=
  ⟨403, [("Error", JVal.str description)]⟩

/-- Error handler for 404 (`not_found` in the source). -/
def not_found (description : String) : Response :=
  ⟨404, [("Error", JVal.str description)]⟩

/-- `request.form.get(key)`: the value of a form field, `None` if absent. -/
def formGet (form : List (String × String)) (k : String) : Option String :=
  (form.find? (fun p => p.1 == k)).map (fun p => p.2)

/-- Render an optional string the way `jsonify` renders `None` or a
string. -/
def jvalOfOpt : Option String → JVal
  | none => JVal.null
  | some s => JVal.str s

/-- The argument tuple the handler passes to `AUTH.register_user`. -/
structure RegisterCall where
  first_name : Option String
  last_name : Option String
  email : Option String
  password : Option String
deriving DecidableEq, Repr

/-- Handler for `POST /users`.  It reads the four form fields without any
presence check and calls `AUTH.register_user` (the `auth` module is not in
`src/`; its outcome is abstracted by `authRaises`, true when it raises
`ValueError` for a duplicate email as the spec describes).  The result
records the arguments passed to the auth service together with the HTTP
response. -/
def register_user (form : List (String × String)) (authRaises : Bool) :
    RegisterCall × Response :=
  let first_name := formGet form "first_name"
  let last_name := formGet form "last_name"
  let email := formGet form "email"
  let password := formGet form "password"
  (⟨first_name, last_name, email, password⟩,
   if authRaises then bad_request "Email already registered"
   else ⟨200, [("email", jvalOfOpt email), ("message", JVal.str "user created")]⟩)

/-- Handler for `GET /dashboard`: all stored roadmaps sorted by
`created_at` descending (`sorted(..., reverse=True)`). -/
def dashboard (st : Storage) : List Roadmap :=
  List.insertionSort (fun a b => b.created_at ≤ a.created_at) st.roadmaps

/-- One topic entry of the request JSON; each field is `none` when the
corresponding key is absent (subscripting it then raises KeyError). -/
structure TopicPayload where
  topicName : Option String
  descriptions : Option String
  milestones : Option String
  learningObjectives : Option (List String)
  resources : Option (List String)
deriving DecidableEq, Repr

/-- The `"Roadmap"` object of the request JSON for `create_roadmap`. -/
structure RoadmapPayload where
  title : Option String
  introduction : Option String
  additionalInfo : Option String
  topics : Option (List TopicPayload)
deriving DecidableEq, Repr

/-- Result of the `create_roadmap` handler.  `serverError k` is an
unhandled `KeyError` on key `k`, which Flask reports as a generic 500 (the
handler has no `try` around the payload subscripts). -/
inductive CreateResult where
  | badRequest : String → CreateResult
  | notFound : String → CreateResult
  | serverError : String → CreateResult
  | created : Nat → CreateResult
deriving DecidableEq, Repr

/-- Process one topic entry of `create_roadmap`: construct the Topic
(consuming one fresh id), then construct and save each Objective, then
each Resource, and only then save the Topic itself, exactly in source
order.  Returns the KeyError key if a payload key is missing, the saves
performed so far, and the next fresh id. -/
def buildTopic (rid pos nid : Nat) (td : TopicPayload) :
    Option String × List Entity × Nat :=
  match td.topicName with
  | none => (some "TopicName", [], nid)
  | some nm =>
    match td.descriptions with
    | none => (some "Descriptions", [], nid)
    | some ds =>
      match td.milestones with
      | none => (some "Milestones", [], nid)
      | some ms =>
        let t : Topic := ⟨nid, rid, pos, nm, ds, ms⟩
        match td.learningObjectives with
        | none => (some "LearningObjectives", [], nid)
        | some objs =>
          let objOps := objs.enum.map
            (fun p => Entity.objective ⟨nid + 1 + p.1, t.id, p.2⟩)
          match td.resources with
          | none => (some "Resources", objOps, nid)
          | some ress =>
            let resOps := ress.enum.map
              (fun p => Entity.resource ⟨nid + 1 + objs.length + p.1, t.id, p.2⟩)
            (none, objOps ++ resOps ++ [Entity.topic t],
             nid + 1 + objs.length + ress.length)

/-- The `for topic_data in roadmap_response["Topics"]` loop: positions are
assigned sequentially; a KeyError aborts the loop keeping the saves done so
far. -/
def buildTopics (rid : Nat) : List TopicPayload → Nat → Nat → Option String × List Entity
  | [], _, _ => (none, [])
  | td :: rest, pos, nid =>
    match buildTopic rid pos nid td with
    | (some k, ops, _) => (some k, ops)
    | (none, ops, nid2) =>
      let r := buildTopics rid rest (pos + 1) nid2
      (r.1, ops ++ r.2)

/-- Handler for `POST /create_roadmap`.  Returns the handler result and
the ordered list of `save` events performed.  Checks only the presence of
`user_id` and `"Roadmap"` (400) and the existence of the user (404); every
other payload key is subscripted without a check, so a missing key raises
KeyError after any saves already performed. -/
def create_roadmap (st : Storage) (user_id : Option Nat)
    (payload : Option RoadmapPayload) (nid now : Nat) :
    CreateResult × List Entity :=
  match user_id with
  | none => (.badRequest "Missing User Id", [])
  | some uid =>
    match payload with
    | none => (.badRequest "Missing Roadmap", [])
    | some rp =>
      match showUser st uid with
      | none => (.notFound ("User id: " ++ toString uid ++ " Not Found"), [])
      | some u =>
        match rp.title with
        | none => (.serverError "Title", [])
        | some ttl =>
          match rp.introduction with
          | none => (.serverError "Introduction", [])
          | some intro =>
            match rp.additionalInfo with
            | none => (.serverError "AdditionalInfo", [])
            | some ai =>
              let rm : Roadmap := ⟨nid, uid, ttl, intro, ai, true, false, false, now⟩
              match rp.topics with
              | none => (.serverError "Topics", [Entity.roadmap rm])
              | some tds =>
                match buildTopics rm.id tds 1 (nid + 1) with
                | (some k, ops) => (.serverError k, Entity.roadmap rm :: ops)
                | (none, ops) =>
                  (.created rm.id, Entity.roadmap rm :: (ops ++ [Entity.user u]))

/-- Extract the topic of a save event, if it is one. -/
def topicOf : Entity → Option Topic
  | .topic t => some t
  | _ => none

/-- The topics among a list of save events, in save order. -/
def topicsOf (ops : List Entity) : List Topic :=
  ops.filterMap topicOf

/-- Sort topics ascending by position (`sorted(..., key=lambda t: t.position)`). -/
def sortTopics (ts : List Topic) : List Topic :=
  List.insertionSort (fun a b => a.position ≤ b.position) ts

/-- Structured result of `GET /roadmap/<roadmap_id>`. -/
inductive ViewResult where
  | notFound : ViewResult
  | ok : Roadmap → List Topic → List Objective → List Resource → ViewResult
deriving DecidableEq, Repr

/-- Handler for `GET /roadmap/<roadmap_id>`: fetches the roadmap, its
topics, and per topic its objectives and resources; the topics of the
response are sorted ascending by position, the children keep fetch order. -/
def view_roadmap (st : Storage) (rid : Nat) : ViewResult :=
  match showRoadmap st rid with
  | none => .notFound
  | some rm =>
    let topics := fetchTopics st rm.id
    let objectives := topics.flatMap (fun t => fetchObjectives st t.id)
    let resources := topics.flatMap (fun t => fetchResources st t.id)
    .ok rm (sortTopics topics) objectives resources

/-- The topics of a view result, if the roadmap was found. -/
def viewTopicsOf : ViewResult → Option (List Topic)
  | .notFound => none
  | .ok _ ts _ _ => some ts

/-- Modelled from the spec: `to_dict` of a roadmap in the `models`
package serializes its fields. -/
def roadmapToDict (r : Roadmap) : JVal :=
  .obj [("id", .num r.id), ("user_id", .num r.user_id), ("title", .str r.title),
        ("introduction", .str r.introduction), ("AdditionalInfo", .str r.additionalInfo),
        ("planning", .bool r.planning), ("in_progress", .bool r.in_progress),
        ("completed", .bool r.completed), ("created_at", .num r.created_at)]

/-- Modelled from the spec: `to_dict` of a topic. -/
def topicToDict (t : Topic) : JVal :=
  .obj [("id", .num t.id), ("roadmap_id", .num t.roadmap_id),
        ("position", .num t.position), ("name", .str t.name),
        ("description", .str t.description), ("milestones", .str t.milestones)]

/-- Modelled from the spec: `to_dict` of an objective. -/
def objectiveToDict (o : Objective) : JVal :=
  .obj [("id", .num o.id), ("topic_id", .num o.topic_id), ("name", .str o.name)]

/-- Modelled from the spec: `to_dict` of a resource. -/
def resourceToDict (s : Resource) : JVal :=
  .obj [("id", .num s.id), ("topic_id", .num s.topic_id), ("link", .str s.link)]

/-- The HTTP rendering of `view_roadmap`: the not-found branch returns
`jsonify({'error': 'Roadmap not found'}), 404` (lowercase key, built
inline, not via the registered error handlers). -/
def viewHttp : ViewResult → Response
  | .notFound => ⟨404, [("error", JVal.str "Roadmap not found")]⟩
  | .ok rm ts os rs =>
      ⟨200, [("roadmap", roadmapToDict rm),
             ("objectives", .arr (os.map objectiveToDict)),
             ("topics", .arr (ts.map topicToDict)),
             ("resources", .arr (rs.map resourceToDict))]⟩

/-- Run a per-save check over a trace of save events, threading the store. -/
def traceCheck (p : Storage → Entity → Bool) : Storage → List Entity → Bool
  | _, [] => true
  | st, e :: rest => p st e && traceCheck p (applySave st e) rest

/-- The parent of a child record exists in the store at this moment. -/
def parentOk (st : Storage) : Entity → Bool
  | .topic t => st.roadmaps.any (fun r => r.id == t.roadmap_id)
  | .objective o => st.topics.any (fun t => t.id == o.topic_id)
  | .resource s => st.topics.any (fun t => t.id == s.topic_id)
  | _ => true

/-- Same check restricted to Topic saves. -/
def topicParentOk (st : Storage) : Entity → Bool
  | .topic t => st.roadmaps.any (fun r => r.id == t.roadmap_id)
  | _ => true

/-- Every child save in the trace happens with its parent already stored. -/
def traceOk (st : Storage) (ops : List Entity) : Bool :=
  traceCheck parentOk st ops

/-- Every Topic save in the trace happens with its roadmap already stored. -/
def topicTraceOk (st : Storage) (ops : List Entity) : Bool :=
  traceCheck topicParentOk st ops

/-- An empty store, for concrete instantiations. -/
def stEmpty : Storage := ⟨[], [], [], [], []⟩

/-- A concrete roadmap in planning state. -/
def rmA : Roadmap := ⟨0, 7, "t", "i", "a", true, false, false, 0⟩

/-- A store holding only `rmA`. -/
def stA : Storage := ⟨[], [rmA], [], [], []⟩

/-- The roadmap `rmA` after a completed-status update. -/
def rmACompleted : Roadmap := ⟨0, 7, "t", "i", "a", false, false, true, 0⟩

/-- A concrete user. -/
def uA : User := ⟨7, "Ada", "Lovelace", "ada@example.com"⟩

/-- A store holding only `uA`. -/
def stU : Storage := ⟨[uA], [], [], [], []⟩

/-- Topic payload entry A with no objectives and no resources. -/
def tpA : TopicPayload := ⟨some "A", some "dA", some "mA", some [], some []⟩

/-- Topic payload entry B with no objectives and no resources. -/
def tpB : TopicPayload := ⟨some "B", some "dB", some "mB", some [], some []⟩

/-- A valid create payload with two topics in order A, B. -/
def rpTwo : RoadmapPayload := ⟨some "T", some "I", some "AI", some [tpA, tpB]⟩

/-- The roadmap record created from `rpTwo` with fresh id 10 at time 5. -/
def rmNew : Roadmap := ⟨10, 7, "T", "I", "AI", true, false, false, 5⟩

/-- First topic record created from `rpTwo`. -/
def tA : Topic := ⟨11, 10, 1, "A", "dA", "mA"⟩

/-- Second topic record created from `rpTwo`. -/
def tB : Topic := ⟨12, 10, 2, "B", "dB", "mB"⟩

/-- The save trace of a successful `create_roadmap` on `rpTwo`. -/
def opsTwo : List Entity := [.roadmap rmNew, .topic tA, .topic tB, .user uA]

/-- A payload with title, introduction and additional info but no
`"Topics"` key. -/
def rpNoTopics : RoadmapPayload := ⟨some "T", some "I", some "AI", none⟩

/-- Topic payload entry with one learning objective. -/
def tpObj : TopicPayload := ⟨some "A", some "dA", some "mA", some ["o1"], some []⟩

/-- A valid create payload whose single topic has one objective. -/
def rpObj : RoadmapPayload := ⟨some "T", some "I", some "AI", some [tpObj]⟩

/-- The save trace of a successful `create_roadmap` on `rpObj`: the
objective is saved before its parent topic. -/
def opsObj : List Entity :=
  [.roadmap rmNew, .objective ⟨12, 11, "o1"⟩,
   .topic ⟨11, 10, 1, "A", "dA", "mA"⟩, .user uA]

/-- The store after `create_roadmap` on `rpTwo`, with the two topics held
in swapped storage order. -/
def stTwoView : Storage := ⟨[uA], [rmNew], [tB, tA], [], []⟩

/-- Roadmap created at time 1. -/
def rd1 : Roadmap := ⟨1, 7, "r1", "", "", true, false, false, 1⟩

/-- Roadmap created at time 2. -/
def rd2 : Roadmap := ⟨2, 7, "r2", "", "", true, false, false, 2⟩

/-- Roadmap created at time 3. -/
def rd3 : Roadmap := ⟨3, 7, "r3", "", "", true, false, false, 3⟩

/-- A store whose roadmaps are held out of creation order. -/
def stDash : Storage := ⟨[], [rd2, rd1, rd3], [], [], []⟩

instance : IsTotal Roadmap (fun a b => b.created_at ≤ a.created_at) :=
  ⟨fun a b => Nat.le_total b.created_at a.created_at⟩

instance : IsTrans Roadmap (fun a b => b.created_at ≤ a.created_at) :=
  ⟨fun _ _ _ hab hbc => Nat.le_trans hbc hab⟩

instance : IsTotal Topic (fun a b => a.position ≤ b.position) :=
  ⟨fun a b => Nat.le_total a.position b.position⟩

instance : IsTrans Topic (fun a b => a.position ≤ b.position) :=
  ⟨fun _ _ _ hab hbc => Nat.le_trans hab hbc⟩

theorem eq_of_perm_sortedKeyAsc {α : Type} (f : α → Nat) {l m : List α} (hp : l.Perm m)
    (hl : List.Sorted (fun a b => f a ≤ f b) l)
    (hm : List.Sorted (fun a b => f a < f b) m) : l = m := by
  haveI : IsAntisymm α (fun a b => f a < f b) :=
    ⟨fun a b h1 h2 => absurd (Nat.lt_trans h1 h2) (Nat.lt_irrefl _)⟩
  have hndm : (m.map f).Nodup := List.pairwise_map.mpr (hm.imp fun h => Nat.ne_of_lt h)
  have hndl : (l.map f).Nodup := ((hp.map f).nodup_iff).mpr hndm
  have hne : l.Pairwise (fun a b => f a ≠ f b) := List.pairwise_map.mp hndl
  have hstrict : List.Sorted (fun a b => f a < f b) l :=
    (hl.and hne).imp (fun h => Nat.lt_of_le_of_ne h.1 h.2)
  exact List.eq_of_perm_of_sorted hp hstrict hm

theorem eq_of_perm_sortedKeyDesc {α : Type} (f : α → Nat) {l m : List α} (hp : l.Perm m)
    (hl : List.Sorted (fun a b => f b ≤ f a) l)
    (hm : List.Sorted (fun a b => f b < f a) m) : l = m := by
  haveI : IsAntisymm α (fun a b => f b < f a) :=
    ⟨fun a b h1 h2 => absurd (Nat.lt_trans h1 h2) (Nat.lt_irrefl _)⟩
  have hndm : (m.map f).Nodup :=
    List.pairwise_map.mpr (hm.imp fun h => (Nat.ne_of_lt h).symm)
  have hndl : (l.map f).Nodup := ((hp.map f).nodup_iff).mpr hndm
  have hne : l.Pairwise (fun a b => f a ≠ f b) := List.pairwise_map.mp hndl
  have hstrict : List.Sorted (fun a b => f b < f a) l :=
    (hl.and hne).imp (fun h => Nat.lt_of_le_of_ne h.1 (Ne.symm h.2))
  exact List.eq_of_perm_of_sorted hp hstrict hm

theorem showRoadmap_id {st : Storage} {rid : Nat} {r : Roadmap}
    (h : showRoadmap st rid = some r) : r.id = rid := by
  have := List.find?_some h
  simpa using this

theorem showRoadmap_mem {st : Storage} {rid : Nat} {r : Roadmap}
    (h : showRoadmap st rid = some r) : r ∈ st.roadmaps :=
  List.mem_of_find?_eq_some h

theorem setStatus_id (r : Roadmap) (s : String) : (setStatus r s).id = r.id := by
  unfold setStatus
  split_ifs <;> rfl

theorem setStatus_invalid (r : Roadmap) (s : String) (h1 : s ≠ "planning")
    (h2 : s ≠ "in_progress") (h3 : s ≠ "completed") : setStatus r s = r := by
  simp [setStatus, h1, h2, h3]

theorem statusMatches_setStatus (r : Roadmap) (s : String)
    (hs : s ∈ (["planning", "in_progress", "completed"] : List String)) :
    statusMatches (setStatus r s) s = true := by
  have hs2 : s = "planning" ∨ s = "in_progress" ∨ s = "completed" := by simpa using hs
  rcases hs2 with rfl | rfl | rfl <;> simp [setStatus, statusMatches]

theorem mem_saveIn {α : Type} (idOf : α → Nat) {l : List α} {x y : α}
    (h : y ∈ saveIn idOf l x) : y = x ∨ (y ∈ l ∧ idOf y ≠ idOf x) := by
  unfold saveIn at h
  by_cases hc : l.any (fun z => idOf z == idOf x) = true
  · rw [if_pos hc] at h
    rcases List.mem_map.mp h with ⟨z, hz, hzy⟩
    by_cases hid : (idOf z == idOf x) = true
    · left
      rw [if_pos hid] at hzy
      exact hzy.symm
    · right
      rw [if_neg hid] at hzy
      cases hzy
      exact ⟨hz, by simpa using hid⟩
  · rw [if_neg hc] at h
    rcases List.mem_append.mp h with hy | hy
    · right
      refine ⟨hy, fun he => hc ?_⟩
      exact List.any_eq_true.mpr ⟨y, hy, by simp [he]⟩
    · left
      simpa using hy

theorem any_id_saveIn_self {α : Type} (idOf : α → Nat) (l : List α) (x : α) :
    (saveIn idOf l x).any (fun y => idOf y == idOf x) = true := by
  unfold saveIn
  by_cases hc : l.any (fun z => idOf z == idOf x) = true
  · rw [if_pos hc]
    rcases List.any_eq_true.mp hc with ⟨z, hz, hzx⟩
    refine List.any_eq_true.mpr ⟨if idOf z == idOf x then x else z,
      List.mem_map_of_mem _ hz, ?_⟩
    simp [hzx]
  · rw [if_neg hc]
    refine List.any_eq_true.mpr ⟨x, List.mem_append_right _ (by simp), by simp⟩

theorem any_id_saveIn_pres {α : Type} (idOf : α → Nat) {l : List α} (x : α) {n : Nat}
    (h : l.any (fun y => idOf y == n) = true) :
    (saveIn idOf l x).any (fun y => idOf y == n) = true := by
  unfold saveIn
  rcases List.any_eq_true.mp h with ⟨y, hy, hyn⟩
  by_cases hc : l.any (fun z => idOf z == idOf x) = true
  · rw [if_pos hc]
    refine List.any_eq_true.mpr ⟨if idOf y == idOf x then x else y,
      List.mem_map_of_mem _ hy, ?_⟩
    by_cases hid : (idOf y == idOf x) = true
    · have h1 : idOf y = idOf x := by simpa using hid
      have h2 : idOf y = n := by simpa using hyn
      simp [hid, ← h1, h2]
    · simp only [if_neg hid]
      exact hyn
  · rw [if_neg hc]
    exact List.any_eq_true.mpr ⟨y, List.mem_append_left _ hy, hyn⟩

/-- C1: on a roadmap_id absent from storage, `update_roadmap_status` does
leave all stored state unchanged, but the `abort(404)` is caught by the
handler's blanket `except Exception` and reported as HTTP 500, not 404. -/
theorem c1_update_missing_roadmap (st : Storage) (rid : Nat) (ns : Option String)
    (h : showRoadmap st rid = none) :
    (update_roadmap_status st rid ns).1.status = 500 ∧
    (update_roadmap_status st rid ns).2 = st := by
  simp [update_roadmap_status, h]

/-- C1 witness: concrete evaluation at an empty store. -/
theorem c1_update_missing_roadmap_witness :
    showRoadmap stEmpty 1 = none ∧
    (update_roadmap_status stEmpty 1 (some "planning")).1.status = 500 ∧
    (update_roadmap_status stEmpty 1 (some "planning")).2 = stEmpty :=
  ⟨rfl, (c1_update_missing_roadmap stEmpty 1 (some "planning") rfl).1,
   (c1_update_missing_roadmap stEmpty 1 (some "planning") rfl).2⟩

/-- C2 counterexample: for the existing roadmap `rmA` and the non-empty
invalid status "done", the handler reports success (HTTP 200, not 403)
and persists the roadmap with its flags unchanged. -/
theorem c2_counterexample :
    (update_roadmap_status stA 0 (some "done")).1.status = 200 ∧
    (update_roadmap_status stA 0 (some "done")).1.body =
      [("message", JVal.str "Roadmap status (done) updated successfully")] ∧
    (update_roadmap_status stA 0 (some "done")).2.roadmaps = [rmA] :=
  ⟨rfl, rfl, rfl⟩

/-- C2 amended: `update_status` checks only presence of `new_status`.  A
non-empty status outside the valid set yields HTTP 200 with a success
message and saves the roadmap with its flags unchanged; a missing or
empty status triggers the `abort(403)`, which the blanket `except`
converts into an HTTP 500 response. -/
theorem c2_amended :
    (∀ st rid r s, showRoadmap st rid = some r → s ≠ "" →
      s ∉ (["planning", "in_progress", "completed"] : List String) →
      update_roadmap_status st rid (some s) =
        (⟨200, [("message", JVal.str ("Roadmap status (" ++ s ++ ") updated successfully"))]⟩,
         applySave st (Entity.roadmap r))) ∧
    (∀ st rid r ns, showRoadmap st rid = some r → (ns = none ∨ ns = some "") →
      update_roadmap_status st rid ns =
        (⟨500, [("error", JVal.str "An error occurred: 403 Forbidden: Invalid Request body")]⟩,
         st)) := by
  constructor
  · intro st rid r s hr hne hmem
    have hmem2 : ¬(s = "planning" ∨ s = "in_progress" ∨ s = "completed") := by
      simpa using hmem
    push_neg at hmem2
    obtain ⟨h1, h2, h3⟩ := hmem2
    simp [update_roadmap_status, hr, hne, setStatus_invalid r s h1 h2 h3]
  · intro st rid r ns hr hns
    rcases hns with rfl | rfl <;> simp [update_roadmap_status, hr]

/-- C2 amended witness: concrete evaluation at `rmA` and status "done",
and at the empty status. -/
theorem c2_amended_witness :
    update_roadmap_status stA 0 (some "done") =
      (⟨200, [("message", JVal.str ("Roadmap status (" ++ "done" ++ ") updated successfully"))]⟩,
       applySave stA (Entity.roadmap rmA)) ∧
    update_roadmap_status stA 0 (some "") =
      (⟨500, [("error", JVal.str "An error occurred: 403 Forbidden: Invalid Request body")]⟩,
       stA) :=
  ⟨c2_amended.1 stA 0 rmA "done" rfl (by decide) (by decide),
   c2_amended.2 stA 0 rmA (some "") rfl (Or.inr rfl)⟩

/-- C3 counterexample: an `update_status` call on the existing roadmap
`rmA` with the invalid status "done" completes with HTTP 200, yet the
stored roadmap keeps its old flags, which do not correspond to "done". -/
theorem c3_counterexample :
    (update_roadmap_status stA 0 (some "done")).1.status = 200 ∧
    (update_roadmap_status stA 0 (some "done")).2.roadmaps = [rmA] ∧
    statusMatches rmA "done" = false :=
  ⟨rfl, rfl, rfl⟩

/-- C3 amended: after an `update_status` call with a status in
{planning, in_progress, completed} on an existing roadmap, the call
returns 200 and every stored roadmap with that id has exactly the
requested flag true and the other two false. -/
theorem c3_amended (st : Storage) (rid : Nat) (s : String) (r : Roadmap)
    (hr : showRoadmap st rid = some r)
    (hs : s ∈ (["planning", "in_progress", "completed"] : List String)) :
    (update_roadmap_status st rid (some s)).1.status = 200 ∧
    ∀ r2 ∈ (update_roadmap_status st rid (some s)).2.roadmaps,
      r2.id = rid → statusMatches r2 s = true := by
  have hs2 : s = "planning" ∨ s = "in_progress" ∨ s = "completed" := by simpa using hs
  have hne : s ≠ "" := by rcases hs2 with rfl | rfl | rfl <;> decide
  constructor
  · simp [update_roadmap_status, hr, hne]
  · intro r2 hr2 hid
    have hmem : r2 ∈ saveIn Roadmap.id st.roadmaps (setStatus r s) := by
      simpa [update_roadmap_status, hr, hne, applySave] using hr2
    rcases mem_saveIn Roadmap.id hmem with rfl | ⟨_, hne2⟩
    · exact statusMatches_setStatus r s hs
    · exfalso
      apply hne2
      rw [setStatus_id, showRoadmap_id hr]
      exact hid

/-- C3 amended witness: updating `rmA` to "completed" stores exactly the
completed flag. -/
theorem c3_amended_witness :
    (update_roadmap_status stA 0 (some "completed")).1.status = 200 ∧
    statusMatches rmACompleted "completed" = true := by
  have h := c3_amended stA 0 "completed" rmA rfl (by decide)
  exact ⟨h.1, h.2 rmACompleted (by decide) rfl⟩

/-- C8 counterexample: the 404 from fetching a missing roadmap is a JSON
body keyed by lowercase "error", not the claimed shape keyed "Error". -/
theorem c8_counterexample :
    (viewHttp (view_roadmap stEmpty 1)).status = 404 ∧
    (viewHttp (view_roadmap stEmpty 1)).body.map Prod.fst = ["error"] ∧
    "Error" ∉ (viewHttp (view_roadmap stEmpty 1)).body.map Prod.fst :=
  ⟨rfl, rfl, by decide⟩

/-- C8 amended: failures rendered by the registered 400/403/404 error
handlers have shape with key "Error"; the inline 404 of `view_roadmap`
and every failure response of `update_roadmap_status` (always reported
as 500) instead use lowercase key "error". -/
theorem c8_amended :
    (∀ d, (bad_request d).status = 400 ∧ (bad_request d).body = [("Error", JVal.str d)]) ∧
    (∀ d, (forbidden d).status = 403 ∧ (forbidden d).body = [("Error", JVal.str d)]) ∧
    (∀ d, (not_found d).status = 404 ∧ (not_found d).body = [("Error", JVal.str d)]) ∧
    (∀ st rid, showRoadmap st rid = none →
      viewHttp (view_roadmap st rid) = ⟨404, [("error", JVal.str "Roadmap not found")]⟩) ∧
    (∀ st rid ns, (update_roadmap_status st rid ns).1.status ≠ 200 →
      (update_roadmap_status st rid ns).1.status = 500 ∧
      (update_roadmap_status st rid ns).1.body.map Prod.fst = ["error"]) := by
  refine ⟨fun d => ⟨rfl, rfl⟩, fun d => ⟨rfl, rfl⟩, fun d => ⟨rfl, rfl⟩, ?_, ?_⟩
  · intro st rid h
    simp [view_roadmap, h, viewHttp]
  · intro st rid ns h
    rcases hsr : showRoadmap st rid with _ | r
    · simp [update_roadmap_status, hsr]
    · rcases ns with _ | s
      · simp [update_roadmap_status, hsr]
      · by_cases hse : s = ""
        · simp [update_roadmap_status, hsr, hse]
        · exfalso
          apply h
          simp [update_roadmap_status, hsr, hse]

/-- C8 amended witness: concrete failure responses of each kind. -/
theorem c8_amended_witness :
    (bad_request "x").status = 400 ∧
    viewHttp (view_roadmap stEmpty 2) = ⟨404, [("error", JVal.str "Roadmap not found")]⟩ ∧
    (update_roadmap_status stEmpty 3 none).1.body.map Prod.fst = ["error"] :=
  ⟨(c8_amended.1 "x").1, c8_amended.2.2.2.1 stEmpty 2 rfl,
   (c8_amended.2.2.2.2 stEmpty 3 none (by decide)).2⟩

/-- C10: `POST /users` performs no presence validation: for every
request form — in particular any in which any or all of first_name,
last_name, email, password are absent — the handler passes exactly the
form lookup of each field to `AUTH.register_user` (None for each absent
field, the supplied value for each present one), and the success path
returns HTTP 200 with the possibly-null supplied email echoed in the
body. -/
theorem c10_no_field_validation (form : List (String × String)) :
    (register_user form false).1 =
      ⟨formGet form "first_name", formGet form "last_name",
       formGet form "email", formGet form "password"⟩ ∧
    (register_user form false).2.status = 200 ∧
    (register_user form false).2.body =
      [("email", jvalOfOpt (formGet form "email")), ("message", JVal.str "user created")] :=
  ⟨rfl, rfl, rfl⟩

theorem topicsOf_append (a b : List Entity) : topicsOf (a ++ b) = topicsOf a ++ topicsOf b :=
  List.filterMap_append a b _

theorem topicsOf_map_none {β : Type} (l : List β) (g : β → Entity)
    (hg : ∀ b, topicOf (g b) = none) : topicsOf (l.map g) = [] := by
  induction l with
  | nil => rfl
  | cons p t ih =>
      unfold topicsOf at ih ⊢
      rw [List.map_cons, List.filterMap_cons, hg p]
      exact ih

theorem topicsOf_mem {l : List Entity} {t : Topic} (h : t ∈ topicsOf l) :
    Entity.topic t ∈ l := by
  unfold topicsOf at h
  rcases List.mem_filterMap.mp h with ⟨e, he, hfe⟩
  cases e with
  | topic t2 =>
      have h2 : t2 = t := by simpa [topicOf] using hfe
      exact h2 ▸ he
  | user u => simp [topicOf] at hfe
  | roadmap r => simp [topicOf] at hfe
  | objective o => simp [topicOf] at hfe
  | resource s => simp [topicOf] at hfe

theorem buildTopic_mem {rid pos nid : Nat} {td : TopicPayload} {e : Entity}
    (he : e ∈ (buildTopic rid pos nid td).2.1) :
    (∃ o, e = Entity.objective o) ∨ (∃ s, e = Entity.resource s) ∨
    (∃ t, e = Entity.topic t ∧ t.roadmap_id = rid) := by
  rcases td with ⟨tn, ds, ms, lo, rs⟩
  rcases tn with _ | nm
  · simp [buildTopic] at he
  rcases ds with _ | d
  · simp [buildTopic] at he
  rcases ms with _ | m
  · simp [buildTopic] at he
  rcases lo with _ | objs
  · simp [buildTopic] at he
  rcases rs with _ | ress
  · simp only [buildTopic] at he
    rcases List.mem_map.mp he with ⟨p, _, rfl⟩
    exact Or.inl ⟨_, rfl⟩
  · simp only [buildTopic] at he
    rcases List.mem_append.mp he with h1 | h2
    · rcases List.mem_append.mp h1 with ha | hb
      · rcases List.mem_map.mp ha with ⟨p, _, rfl⟩
        exact Or.inl ⟨_, rfl⟩
      · rcases List.mem_map.mp hb with ⟨p, _, rfl⟩
        exact Or.inr (Or.inl ⟨_, rfl⟩)
    · have h3 : e = Entity.topic ⟨nid, rid, pos, nm, d, m⟩ := by simpa using h2
      exact Or.inr (Or.inr ⟨_, h3, rfl⟩)

theorem buildTopic_ok {rid pos nid : Nat} {td : TopicPayload} {ops : List Entity} {nid2 : Nat}
    (h : buildTopic rid pos nid td = (none, ops, nid2)) :
    (topicsOf ops).map (fun t => t.position) = [pos] ∧
    (topicsOf ops).map (fun t => some t.name) = [td.topicName] := by
  rcases td with ⟨tn, ds, ms, lo, rs⟩
  rcases tn with _ | nm
  · simp [buildTopic] at h
  rcases ds with _ | d
  · simp [buildTopic] at h
  rcases ms with _ | m
  · simp [buildTopic] at h
  rcases lo with _ | objs
  · simp [buildTopic] at h
  rcases rs with _ | ress
  · simp [buildTopic] at h
  · simp only [buildTopic, Prod.mk.injEq] at h
    obtain ⟨-, hops, -⟩ := h
    subst hops
    have h1 : topicsOf (objs.enum.map
        (fun p => Entity.objective ⟨nid + 1 + p.1, nid, p.2⟩)) = [] :=
      topicsOf_map_none _ _ (fun b => rfl)
    have h2 : topicsOf (ress.enum.map
        (fun p => Entity.resource ⟨nid + 1 + objs.length + p.1, nid, p.2⟩)) = [] :=
      topicsOf_map_none _ _ (fun b => rfl)
    rw [topicsOf_append, topicsOf_append, h1, h2]
    simp [topicsOf, topicOf, List.filterMap_cons]

theorem buildTopics_mem {rid : Nat} : ∀ (tds : List TopicPayload) (pos nid : Nat) (e : Entity),
    e ∈ (buildTopics rid tds pos nid).2 →
    (∃ o, e = Entity.objective o) ∨ (∃ s, e = Entity.resource s) ∨
    (∃ t, e = Entity.topic t ∧ t.roadmap_id = rid)
  | [], _, _, e, he => absurd he (List.not_mem_nil e)
  | td :: rest, pos, nid, e, he => by
      rcases hbt : buildTopic rid pos nid td with ⟨err, ops1, nid2⟩
      rcases err with _ | k
      · simp only [buildTopics, hbt] at he
        rcases List.mem_append.mp he with h1 | h2
        · exact buildTopic_mem (by rw [hbt]; exact h1)
        · exact buildTopics_mem rest (pos + 1) nid2 e h2
      · simp only [buildTopics, hbt] at he
        exact buildTopic_mem (by rw [hbt]; exact he)

theorem buildTopics_ok {rid : Nat} : ∀ (tds : List TopicPayload) (pos nid : Nat)
    (ops : List Entity), buildTopics rid tds pos nid = (none, ops) →
    (topicsOf ops).map (fun t => t.position) = List.range' pos tds.length ∧
    (topicsOf ops).map (fun t => some t.name) = tds.map (fun td => td.topicName)
  | [], pos, nid, ops, h => by
      simp only [buildTopics, Prod.mk.injEq] at h
      obtain ⟨-, rfl⟩ := h
      simp [topicsOf, List.range']
  | td :: rest, pos, nid, ops, h => by
      rcases hbt : buildTopic rid pos nid td with ⟨err, ops1, nid2⟩
      rcases err with _ | k
      · rcases hrest : buildTopics rid rest (pos + 1) nid2 with ⟨err2, ops2⟩
        simp only [buildTopics, hbt, hrest, Prod.mk.injEq] at h
        obtain ⟨h1, h2⟩ := h
        subst h1
        subst h2
        have ha := buildTopic_ok hbt
        have hb := buildTopics_ok rest (pos + 1) nid2 ops2 hrest
        constructor
        · rw [topicsOf_append, List.map_append, ha.1, hb.1]
          rfl
        · rw [topicsOf_append, List.map_append, ha.2, hb.2]
          rfl
      · simp only [buildTopics, hbt] at h
        simp at h

theorem create_ok_inv {st : Storage} {uid : Nat} {rp : RoadmapPayload} {nid now rid : Nat}
    {ops : List Entity}
    (h : create_roadmap st (some uid) (some rp) nid now = (.created rid, ops)) :
    ∃ u ttl intr ai tds opsT,
      showUser st uid = some u ∧ rp.title = some ttl ∧ rp.introduction = some intr ∧
      rp.additionalInfo = some ai ∧ rp.topics = some tds ∧
      buildTopics nid tds 1 (nid + 1) = (none, opsT) ∧ rid = nid ∧
      ops = Entity.roadmap ⟨nid, uid, ttl, intr, ai, true, false, false, now⟩ ::
            (opsT ++ [Entity.user u]) := by
  rcases hu : showUser st uid with _ | u
  · simp [create_roadmap, hu] at h
  rcases ht : rp.title with _ | ttl
  · simp [create_roadmap, hu, ht] at h
  rcases hi : rp.introduction with _ | intr
  · simp [create_roadmap, hu, ht, hi] at h
  rcases ha : rp.additionalInfo with _ | ai
  · simp [create_roadmap, hu, ht, hi, ha] at h
  rcases htop : rp.topics with _ | tds
  · simp [create_roadmap, hu, ht, hi, ha, htop] at h
  rcases hbt : buildTopics nid tds 1 (nid + 1) with ⟨err, opsT⟩
  rcases err with _ | k
  · simp only [create_roadmap, hu, ht, hi, ha, htop, hbt, Prod.mk.injEq,
      CreateResult.created.injEq] at h
    obtain ⟨h1, h2⟩ := h
    exact ⟨u, ttl, intr, ai, tds, opsT, rfl, rfl, rfl, rfl, rfl, hbt, h1.symm, h2.symm⟩
  · simp [create_roadmap, hu, ht, hi, ha, htop, hbt] at h

theorem roadmaps_any_applySave {st : Storage} (e : Entity) {n : Nat}
    (h : st.roadmaps.any (fun r => r.id == n) = true) :
    (applySave st e).roadmaps.any (fun r => r.id == n) = true := by
  cases e with
  | roadmap r => exact any_id_saveIn_pres Roadmap.id r h
  | user u => exact h
  | topic t => exact h
  | objective o => exact h
  | resource s => exact h

theorem topicTrace_aux {n : Nat} : ∀ (ops : List Entity) (st : Storage),
    (∀ t : Topic, Entity.topic t ∈ ops → t.roadmap_id = n) →
    st.roadmaps.any (fun r => r.id == n) = true →
    traceCheck topicParentOk st ops = true
  | [], _, _, _ => rfl
  | e :: rest, st, hall, hany => by
      simp only [traceCheck, Bool.and_eq_true]
      refine ⟨?_, topicTrace_aux rest (applySave st e)
        (fun t htm => hall t (List.mem_cons_of_mem e htm))
        (roadmaps_any_applySave e hany)⟩
      cases e with
      | topic t =>
          have h1 : t.roadmap_id = n := hall t (List.mem_cons_self _ _)
          simp only [topicParentOk]
          rw [h1]
          exact hany
      | user u => rfl
      | roadmap r => rfl
      | objective o => rfl
      | resource s => rfl

/-- C4 counterexample: a payload with title, introduction and additional
info but no "Topics" key produces an unhandled KeyError (a generic 500,
not a 400 MissingField), and by that point the Roadmap has already been
saved: replaying the trace leaves it in storage. -/
theorem c4_counterexample :
    create_roadmap stU (some 7) (some rpNoTopics) 10 5 =
      (.serverError "Topics", [Entity.roadmap rmNew]) ∧
    rmNew ∈ (runSaves stU [Entity.roadmap rmNew]).roadmaps :=
  ⟨rfl, by decide⟩

/-- C4 amended: with user, title, introduction and additional info
present but the "Topics" key absent, `create_roadmap` raises KeyError
"Topics" (reported as a generic 500) and its save trace consists of
exactly the already-persisted Roadmap record. -/
theorem c4_amended (st : Storage) (uid : Nat) (u : User) (rp : RoadmapPayload)
    (ttl intr ai : String) (nid now : Nat)
    (hu : showUser st uid = some u) (ht : rp.title = some ttl)
    (hi : rp.introduction = some intr) (ha : rp.additionalInfo = some ai)
    (htop : rp.topics = none) :
    create_roadmap st (some uid) (some rp) nid now =
      (.serverError "Topics",
       [Entity.roadmap ⟨nid, uid, ttl, intr, ai, true, false, false, now⟩]) := by
  simp [create_roadmap, hu, ht, hi, ha, htop]

/-- C4 amended witness: concrete evaluation on `rpNoTopics`. -/
theorem c4_amended_witness :
    create_roadmap stU (some 7) (some rpNoTopics) 10 5 =
      (.serverError "Topics", [Entity.roadmap rmNew]) :=
  c4_amended stU 7 uA rpNoTopics "T" "I" "AI" 10 5 rfl rfl rfl rfl rfl

/-- C7: every Roadmap record saved by a successful `create_roadmap` call
has planning=true, in_progress=false, completed=false. -/
theorem c7_initial_flags (st : Storage) (uid : Nat) (rp : RoadmapPayload)
    (nid now rid : Nat) (ops : List Entity)
    (h : create_roadmap st (some uid) (some rp) nid now = (.created rid, ops)) :
    ∀ r, Entity.roadmap r ∈ ops →
      r.planning = true ∧ r.in_progress = false ∧ r.completed = false := by
  obtain ⟨u, ttl, intr, ai, tds, opsT, hu, ht, hi, ha, htop, hbt, hrid, hops⟩ :=
    create_ok_inv h
  subst hops
  intro r hr
  rcases List.mem_cons.mp hr with he | he
  · obtain rfl : r = ⟨nid, uid, ttl, intr, ai, true, false, false, now⟩ := by
      simpa using he
    exact ⟨rfl, rfl, rfl⟩
  · rcases List.mem_append.mp he with h2 | h2
    · rcases buildTopics_mem tds 1 (nid + 1) _ (by rw [hbt]; exact h2) with
        ⟨o, ho⟩ | ⟨s2, hs2⟩ | ⟨t, htq, -⟩
      · exact absurd ho (by simp)
      · exact absurd hs2 (by simp)
      · exact absurd htq (by simp)
    · simp at h2

/-- C7 witness: concrete successful creation on `rpTwo`. -/
theorem c7_initial_flags_witness :
    create_roadmap stU (some 7) (some rpTwo) 10 5 = (.created 10, opsTwo) ∧
    rmNew.planning = true ∧ rmNew.in_progress = false ∧ rmNew.completed = false :=
  ⟨rfl, c7_initial_flags stU 7 rpTwo 10 5 10 opsTwo rfl rmNew (by decide)⟩

/-- C5: topics of a successful `create_roadmap` carry sequential
positions 1, 2, ... in payload order and the payload's names in order,
and `view_roadmap` returns them sorted ascending by position — hence in
the original input order — from any storage reordering of them. -/
theorem c5_topic_order (st : Storage) (uid : Nat) (rp : RoadmapPayload)
    (tds : List TopicPayload) (nid now rid : Nat) (ops : List Entity)
    (st2 : Storage) (rm2 : Roadmap)
    (htop : rp.topics = some tds)
    (hc : create_roadmap st (some uid) (some rp) nid now = (.created rid, ops))
    (hperm : st2.topics.Perm (topicsOf ops))
    (hfind : showRoadmap st2 rid = some rm2) :
    (topicsOf ops).map (fun t => t.position) = List.range' 1 tds.length ∧
    (topicsOf ops).map (fun t => some t.name) = tds.map (fun td => td.topicName) ∧
    viewTopicsOf (view_roadmap st2 rid) = some (topicsOf ops) := by
  obtain ⟨u, ttl, intr, ai, tds2, opsT, hu, ht, hi, ha, htop2, hbt, hrid, hops⟩ :=
    create_ok_inv hc
  rw [htop] at htop2
  obtain rfl : tds = tds2 := by injection htop2
  subst hrid
  subst hops
  have htops : topicsOf (Entity.roadmap ⟨rid, uid, ttl, intr, ai, true, false, false, now⟩ ::
      (opsT ++ [Entity.user u])) = topicsOf opsT := by
    simp [topicsOf, topicOf, List.filterMap_cons, List.filterMap_append]
  rw [htops] at hperm ⊢
  have hok := buildTopics_ok tds 1 (rid + 1) opsT hbt
  refine ⟨hok.1, hok.2, ?_⟩
  have hrm2 : rm2.id = rid := showRoadmap_id hfind
  have hall : ∀ t ∈ topicsOf opsT, t.roadmap_id = rid := by
    intro t htm
    rcases buildTopics_mem tds 1 (rid + 1) (Entity.topic t)
        (by rw [hbt]; exact topicsOf_mem htm) with
      ⟨o, ho⟩ | ⟨s2, hs2⟩ | ⟨t2, ht2, hid2⟩
    · exact absurd ho (by simp)
    · exact absurd hs2 (by simp)
    · have h3 : t = t2 := by simpa using ht2
      rw [h3]
      exact hid2
  have hft : fetchTopics st2 rm2.id = st2.topics := by
    unfold fetchTopics
    apply List.filter_eq_self.mpr
    intro t htm
    have h1 : t ∈ topicsOf opsT := hperm.subset htm
    simp [hall t h1, hrm2]
  have hsort : sortTopics st2.topics = topicsOf opsT := by
    apply eq_of_perm_sortedKeyAsc (fun t => t.position)
    · exact (List.perm_insertionSort _ _).trans hperm
    · exact List.sorted_insertionSort _ _
    · have hpw : List.Pairwise (· < ·) ((topicsOf opsT).map (fun t => t.position)) := by
        rw [hok.1]
        exact List.pairwise_lt_range' 1 tds.length
      exact List.pairwise_map.mp hpw
  simp only [view_roadmap, hfind, viewTopicsOf, hft, hsort]

/-- C5 witness: the two-topic payload, with the topics stored in swapped
order. -/
theorem c5_topic_order_witness :
    viewTopicsOf (view_roadmap stTwoView 10) = some (topicsOf opsTwo) ∧
    (topicsOf opsTwo).map (fun t => t.position) = [1, 2] :=
  have h := c5_topic_order stU 7 rpTwo [tpA, tpB] 10 5 10 opsTwo stTwoView rmNew
    rfl rfl (by decide) rfl
  ⟨h.2.2, h.1⟩

/-- C6: `list_roadmaps` (the dashboard) returns the stored roadmaps
sorted by created_at descending: for three roadmaps created at times
t1 < t2 < t3, in any storage order, the result is [t3, t2, t1]. -/
theorem c6_dashboard_order (st : Storage) (r1 r2 r3 : Roadmap)
    (hp : st.roadmaps.Perm [r1, r2, r3])
    (h12 : r1.created_at < r2.created_at) (h23 : r2.created_at < r3.created_at) :
    dashboard st = [r3, r2, r1] := by
  apply eq_of_perm_sortedKeyDesc (fun r => r.created_at)
  · exact (List.perm_insertionSort _ _).trans (hp.trans (List.reverse_perm [r1, r2, r3]).symm)
  · exact List.sorted_insertionSort _ _
  · refine List.Pairwise.cons ?_ (List.Pairwise.cons ?_ (List.Pairwise.cons ?_ List.Pairwise.nil))
    · intro b hb
      rcases List.mem_cons.mp hb with rfl | hb2
      · exact h23
      · rcases List.mem_cons.mp hb2 with rfl | hb3
        · exact Nat.lt_trans h12 h23
        · simp at hb3
    · intro b hb
      rcases List.mem_cons.mp hb with rfl | hb2
      · exact h12
      · simp at hb2
    · intro b hb
      simp at hb

/-- C6 witness: three concrete roadmaps held in scrambled storage order. -/
theorem c6_dashboard_order_witness :
    stDash.roadmaps.Perm [rd1, rd2, rd3] ∧ dashboard stDash = [rd3, rd2, rd1] :=
  ⟨by decide, c6_dashboard_order stDash rd1 rd2 rd3 (by decide) (by decide) (by decide)⟩

/-- C9 counterexample: on a payload whose topic has one objective, the
successful create trace saves the Objective before its parent Topic, so
the parent-exists-at-save-time check fails on the trace. -/
theorem c9_counterexample :
    create_roadmap stU (some 7) (some rpObj) 10 5 = (.created 10, opsObj) ∧
    traceOk stU opsObj = false :=
  ⟨rfl, rfl⟩

/-- C9 amended: during any `create_roadmap` call, each Topic record, at
the moment it is persisted, references a roadmap_id whose record already
exists in storage (the analogous guarantee fails for Objectives and
Resources, which are saved before their parent Topic). -/
theorem c9_amended : ∀ (st : Storage) (user_id : Option Nat)
    (payload : Option RoadmapPayload) (nid now : Nat),
    topicTraceOk st (create_roadmap st user_id payload nid now).2 = true := by
  intro st user_id payload nid now
  rcases user_id with _ | uid
  · rfl
  rcases payload with _ | rp
  · rfl
  rcases hu : showUser st uid with _ | u
  · simp [create_roadmap, hu, topicTraceOk, traceCheck]
  rcases ht : rp.title with _ | ttl
  · simp [create_roadmap, hu, ht, topicTraceOk, traceCheck]
  rcases hi : rp.introduction with _ | intr
  · simp [create_roadmap, hu, ht, hi, topicTraceOk, traceCheck]
  rcases ha : rp.additionalInfo with _ | ai
  · simp [create_roadmap, hu, ht, hi, ha, topicTraceOk, traceCheck]
  rcases htop : rp.topics with _ | tds
  · simp [create_roadmap, hu, ht, hi, ha, htop, topicTraceOk, traceCheck, topicParentOk]
  rcases hbt : buildTopics nid tds 1 (nid + 1) with ⟨err, opsT⟩
  have hmem : ∀ t : Topic, Entity.topic t ∈ opsT → t.roadmap_id = nid := by
    intro t htm
    rcases buildTopics_mem tds 1 (nid + 1) (Entity.topic t) (by rw [hbt]; exact htm) with
      ⟨o, ho⟩ | ⟨s2, hs2⟩ | ⟨t2, ht2, hid2⟩
    · exact absurd ho (by simp)
    · exact absurd hs2 (by simp)
    · have h3 : t = t2 := by simpa using ht2
      rw [h3]
      exact hid2
  have hany : (applySave st
      (Entity.roadmap ⟨nid, uid, ttl, intr, ai, true, false, false, now⟩)).roadmaps.any
      (fun r => r.id == nid) = true := by
    simpa [applySave] using any_id_saveIn_self Roadmap.id st.roadmaps
      ⟨nid, uid, ttl, intr, ai, true, false, false, now⟩
  rcases err with _ | k
  · simp only [create_roadmap, hu, ht, hi, ha, htop, hbt]
    simp only [topicTraceOk, traceCheck, topicParentOk, Bool.true_and]
    apply topicTrace_aux
    · intro t htm
      rcases List.mem_append.mp htm with h1 | h1
      · exact hmem t h1
      · simp at h1
    · exact hany
  · simp only [create_roadmap, hu, ht, hi, ha, htop, hbt]
    simp only [topicTraceOk, traceCheck, topicParentOk, Bool.true_and]
    apply topicTrace_aux
    · exact hmem
    · exact hany

/-- C9 amended witness: the topic-parent check holds on the concrete
objective-carrying trace as well. -/
theorem c9_amended_witness :
    topicTraceOk stU (create_roadmap stU (some 7) (some rpObj) 10 5).2 = true :=
  c9_amended stU (some 7) (some rpObj) 10 5

/-- C10 witness: a partially absent form holding only the email — the
three missing fields are passed as None, the present email passes
through and is echoed. -/
theorem c10_no_field_validation_witness :
    (register_user [("email", "a@b.c")] false).1 = ⟨none, none, some "a@b.c", none⟩ ∧
    (register_user [("email", "a@b.c")] false).2.status = 200 ∧
    (register_user [("email", "a@b.c")] false).2.body =
      [("email", JVal.str "a@b.c"), ("message", JVal.str "user created")] :=
  c10_no_field_validation [("email", "a@b.c")]

end Learnify
